import Mathlib

/-!
# Verification of the weather-app MCP client/server pair

Shallow embedding of the repository's server handlers
(`src/server/mcp_server.py`), client facade (`src/client/mcp_client.py`)
and LLM provider dispatcher (`src/client/llm_interactive_client.py`),
together with proofs of the specification's claims about them.

Python's fallible operations (list indexing, `max`/`min` on a possibly
empty list, true division) are embedded as `Except`-valued functions, so
"never raises" becomes "always returns `Except.ok`".
-/

set_option maxRecDepth 100000

deriving instance DecidableEq for Except

namespace WeatherApp

/-! ## Data model (`WeatherMCPServer.__init__`, src/server/mcp_server.py lines 49-78) -/

structure WeatherRecord where
  city : String
  temperature : Int
  conditions : String
  humidity : Int
  wind_speed : Int
deriving Repr, DecidableEq

/-- The statically seeded city-to-record mapping `self.weather_data`,
in Python dict insertion order. -/
def weather_data : List (String × WeatherRecord) :=
  [("new_york", ⟨"New York", 72, "Partly Cloudy", 65, 12⟩),
   ("london",   ⟨"London",   58, "Rainy",         80, 15⟩),
   ("tokyo",    ⟨"Tokyo",    68, "Clear",         55, 8⟩),
   ("paris",    ⟨"Paris",    62, "Cloudy",        70, 10⟩)]

/-- Python `key in self.weather_data` / `self.weather_data[key]`, as a lookup. -/
def lookupCity (key : String) : Option WeatherRecord :=
  (weather_data.find? (fun p => p.1 == key)).map (·.2)

/-- Python `', '.join(self.weather_data.keys())`. -/
def availableCities : String :=
  String.intercalate ", " (weather_data.map (·.1))

/-- Python `arguments.get(key, "")` on a string-valued argument map. -/
def getArg (args : List (String × String)) (key : String) : String :=
  ((args.find? (fun p => p.1 == key)).map (·.2)).getD ""

/-- Python `str.lower` on a single character, for the ASCII strings this
system handles. -/
def charLower (c : Char) : Char :=
  if 65 ≤ c.toNat ∧ c.toNat ≤ 90 then Char.ofNat (c.toNat + 32) else c

/-- Python `str.lower`, for the ASCII strings this system handles. -/
def strLower (s : String) : String := ⟨s.data.map charLower⟩

/-- An MCP `TextContent(type=..., text=...)` payload. -/
structure TextContent where
  type : String
  text : String
deriving Repr, DecidableEq

/-! ## Embeddings of Python's fallible primitives -/

/-- Python `sum` over a list of ints. -/
def pySum (l : List Int) : Int := l.foldl (· + ·) 0

/-- Python true division `n / d`, kept as an exact numerator/denominator
pair (the only value arising here, `260 / 4`, is exactly representable);
raises `ZeroDivisionError` on `d = 0`. -/
def pyTrueDiv (n : Int) (d : Nat) : Except String (Int × Nat) :=
  if d == 0 then .error "ZeroDivisionError: division by zero"
  else .ok (n, d)

/-- Python `max` over a list (raises `ValueError` on an empty list). -/
def pyMax : List Int → Except String Int
  | [] => .error "ValueError: max() arg is an empty sequence"
  | x :: xs => .ok (xs.foldl max x)

/-- Python `min` over a list (raises `ValueError` on an empty list). -/
def pyMin : List Int → Except String Int
  | [] => .error "ValueError: min() arg is an empty sequence"
  | x :: xs => .ok (xs.foldl min x)

/-- Python `l[0]` (raises `IndexError` on an empty list). -/
def pyIndex0 {α : Type} : List α → Except String α
  | [] => .error "IndexError: list index out of range"
  | x :: _ => .ok x

/-- Python `f"{q:.1f}"` on the exact fraction `q = n / d`, for the
non-negative, exactly-one-decimal values arising in this program
(the seeded average `260 / 4 = 65.0`). -/
def format1f : Int × Nat → String
  | (n, d) =>
    let t : Int := n * 10 / (d : Int)
    toString (t / 10) ++ "." ++ toString (t % 10)

/-! ## `handle_call_tool` (src/server/mcp_server.py lines 183-264) -/

/-- The hit-case f-string of the `get_current_weather` branch (lines 207-213). -/
def currentWeatherText (w : WeatherRecord) : String :=
  "Current weather in " ++ w.city ++ ":\n" ++
  "Temperature: " ++ toString w.temperature ++ "°F\n" ++
  "Conditions: " ++ w.conditions ++ "\n" ++
  "Humidity: " ++ toString w.humidity ++ "%\n" ++
  "Wind Speed: " ++ toString w.wind_speed ++ " mph"

/-- The miss-case f-string of the `get_current_weather` branch (line 203). -/
def unknownCityText (city : String) : String :=
  "Error: Unknown city '" ++ city ++ "'. Available cities: " ++ availableCities

/-- The `'warmer' if temp_diff > 0 else 'cooler' if temp_diff < 0 else
'the same temperature'` expression (line 236). -/
def compareLabel (temp_diff : Int) : String :=
  if temp_diff > 0 then "warmer"
  else if temp_diff < 0 then "cooler"
  else "the same temperature"

/-- The hit-case f-string of the `compare_weather` branch (lines 231-237). -/
def compareText (w1 w2 : WeatherRecord) : String :=
  "Weather Comparison:\n\n" ++
  w1.city ++ ": " ++ toString w1.temperature ++ "°F, " ++ w1.conditions ++ "\n" ++
  w2.city ++ ": " ++ toString w2.temperature ++ "°F, " ++ w2.conditions ++ "\n\n" ++
  "Temperature difference: " ++ toString (w1.temperature - w2.temperature).natAbs ++ "°F " ++
  "(" ++ w1.city ++ " is " ++ compareLabel (w1.temperature - w2.temperature) ++ ")"

/-- The miss-case f-string of the `compare_weather` branch (line 224). -/
def compareErrText : String :=
  "Error: One or both cities not found. Available cities: " ++ availableCities

/-- Python `[data['temperature'] for data in self.weather_data.values()]` (line 242). -/
def summaryTemps : List Int := weather_data.map (fun p => p.2.temperature)

/-- The f-string of the `get_temperature_summary` branch (lines 250-256). -/
def summaryText (avg : Int × Nat) (hottest : String) (maxT : Int) (coldest : String)
    (minT : Int) : String :=
  "Temperature Summary Across All Cities:\n\n" ++
  "Average Temperature: " ++ format1f avg ++ "°F\n" ++
  "Hottest: " ++ hottest ++ " at " ++ toString maxT ++ "°F\n" ++
  "Coldest: " ++ coldest ++ " at " ++ toString minT ++ "°F\n" ++
  "Range: " ++ toString (maxT - minT) ++ "°F"

/-- The unknown-tool f-string (line 263). -/
def unknownToolText (name : String) : String :=
  "Error: Unknown tool '" ++ name ++ "'"

/-- Embedding of `handle_call_tool(name, arguments)` (lines 183-264).
Every Python operation that could raise is threaded through `Except`. -/
def handle_call_tool (name : String) (arguments : List (String × String)) :
    Except String (List TextContent) :=
  if name == "get_current_weather" then
    let city := strLower (getArg arguments "city")
    match lookupCity city with
    | none => .ok [⟨"text", unknownCityText city⟩]
    | some weather => .ok [⟨"text", currentWeatherText weather⟩]
  else if name == "compare_weather" then
    let city1 := strLower (getArg arguments "city1")
    let city2 := strLower (getArg arguments "city2")
    match lookupCity city1, lookupCity city2 with
    | some w1, some w2 => .ok [⟨"text", compareText w1 w2⟩]
    | _, _ => .ok [⟨"text", compareErrText⟩]
  else if name == "get_temperature_summary" then do
    let temps := summaryTemps
    let avg_temp ← pyTrueDiv (pySum temps) temps.length
    let max_temp ← pyMax temps
    let min_temp ← pyMin temps
    let hottest_city ← pyIndex0
      (((weather_data.map (·.2)).filter (fun c => c.temperature == max_temp)).map (·.city))
    let coldest_city ← pyIndex0
      (((weather_data.map (·.2)).filter (fun c => c.temperature == min_temp)).map (·.city))
    pure [⟨"text", summaryText avg_temp hottest_city max_temp coldest_city min_temp⟩]
  else
    .ok [⟨"text", unknownToolText name⟩]

/-! ## `handle_read_resource` (src/server/mcp_server.py lines 109-129) -/

/-- Python `str.replace("weather://", "")` on the character list: scan left
to right, removing every (non-overlapping) occurrence of the scheme. -/
def dropWeatherScheme : List Char → List Char
  | 'w' :: 'e' :: 'a' :: 't' :: 'h' :: 'e' :: 'r' :: ':' :: '/' :: '/' :: rest =>
      dropWeatherScheme rest
  | c :: rest => c :: dropWeatherScheme rest
  | [] => []

/-- Python `str(uri).replace("weather://", "")` (replaces every occurrence). -/
def uriCityKey (uri : String) : String := ⟨dropWeatherScheme uri.data⟩

/-- The JSON object built by `handle_read_resource`: a copy of the stored
record with a `timestamp` field stamped on the copy (lines 126-129). -/
def weatherSnapshot (w : WeatherRecord) (now : String) : List (String × String) :=
  [("city", w.city), ("temperature", toString w.temperature),
   ("conditions", w.conditions), ("humidity", toString w.humidity),
   ("wind_speed", toString w.wind_speed), ("timestamp", now)]

/-- Embedding of `handle_read_resource(uri)` (lines 109-129).  Wall-clock
time is the explicit parameter `now`; the second component of the result is
the server's stored mapping after the call (the code mutates only a copy). -/
def handle_read_resource (uri now : String) :
    Except String (List (String × String)) × List (String × WeatherRecord) :=
  let city_key := uriCityKey uri
  match lookupCity city_key with
  | none => (.error ("Unknown city: " ++ city_key), weather_data)
  | some w => (.ok (weatherSnapshot w now), weather_data)

/-! ## `handle_get_prompt` (src/server/mcp_server.py lines 305-359) -/

structure PromptMessage where
  role : String
  content : TextContent
deriving Repr, DecidableEq

structure GetPromptResult where
  description : String
  messages : List PromptMessage
deriving Repr, DecidableEq

/-- The `weather_report` message template (line 335). -/
def weatherReportText (city : String) : String :=
  "Please provide a detailed weather report for " ++ city ++
  ". Include temperature, conditions, humidity, and any relevant advice."

/-- The `travel_weather_advice` message template (line 352). -/
def travelAdviceText (origin destination : String) : String :=
  "I'm traveling from " ++ origin ++ " to " ++ destination ++
  ". Compare the weather in both cities and give me advice on what to pack and what to expect."

/-- Embedding of `handle_get_prompt(name, arguments)` (lines 305-359).
The `weather_report` branch computes `weather_text` (lines 322-326) but the
returned messages never use it — the embedding keeps the dead binding. -/
def handle_get_prompt (name : String) (arguments : List (String × String)) :
    Except String GetPromptResult :=
  if name == "weather_report" then
    let city := strLower (getArg arguments "city")
    let weather_text :=
      match lookupCity city with
      | none => "Error: Unknown city '" ++ city ++ "'"
      | some weather => "The weather in " ++ weather.city
    .ok { description := "Weather report for " ++ city,
          messages := [⟨"user", ⟨"text", weatherReportText city⟩⟩] }
  else if name == "travel_weather_advice" then
    let origin := strLower (getArg arguments "origin")
    let destination := strLower (getArg arguments "destination")
    .ok { description := "Travel advice from " ++ origin ++ " to " ++ destination,
          messages := [⟨"user", ⟨"text", travelAdviceText origin destination⟩⟩] }
  else
    .error ("Unknown prompt: " ++ name)

/-! ## Client facade (`WeatherMCPClient`, src/client/mcp_client.py)

The session is `Option Nat` (the transport id it was opened on); the
`transportsOpened` counter records how many stdio transports have been
entered on the exit stack.  The SDK session behaviour behind each method is
an oracle parameter; the facade code under verification is only the
`if not self.session: raise RuntimeError(...)` guard and the session
lifecycle. -/

structure ClientState where
  session : Option Nat
  transportsOpened : Nat
deriving Repr, DecidableEq

/-- `WeatherMCPClient.__init__` (lines 40-44): `self.session = None`. -/
def initClient : ClientState := { session := none, transportsOpened := 0 }

/-- The `RuntimeError` message raised by every facade method when no
session is open (e.g. line 187). -/
def notConnectedMsg : String := "Not connected to a server. Call connect_to_server first."

/-- Embedding of `connect_to_server` (lines 46-81): unconditionally enters
a new stdio transport on the exit stack and rebinds `self.session`;
`transportOk` is whether the transport/session setup succeeds. -/
def connect_to_server (st : ClientState) (transportOk : Bool) : Except String ClientState :=
  if transportOk then
    .ok { session := some st.transportsOpened,
          transportsOpened := st.transportsOpened + 1 }
  else
    .error "Failed to connect to server"

/-- Embedding of `list_resources` (lines 83-112): guard, then delegate to
the session oracle. -/
def list_resources (st : ClientState) (oracle : Nat → Except String (List String)) :
    Except String (List String) :=
  match st.session with
  | none => .error notConnectedMsg
  | some s => oracle s

/-- Embedding of `read_resource` (lines 114-143). -/
def read_resource (st : ClientState) (uri : String)
    (oracle : Nat → String → Except String String) : Except String String :=
  match st.session with
  | none => .error notConnectedMsg
  | some s => oracle s uri

/-- Embedding of `list_tools` (lines 145-173). -/
def list_tools (st : ClientState) (oracle : Nat → Except String (List String)) :
    Except String (List String) :=
  match st.session with
  | none => .error notConnectedMsg
  | some s => oracle s

/-- Embedding of `call_tool` (lines 175-203). -/
def call_tool (st : ClientState) (tool_name : String) (arguments : List (String × String))
    (oracle : Nat → String → List (String × String) → Except String String) :
    Except String String :=
  match st.session with
  | none => .error notConnectedMsg
  | some s => oracle s tool_name arguments

/-- Embedding of `list_prompts` (lines 205-240). -/
def list_prompts (st : ClientState) (oracle : Nat → Except String (List String)) :
    Except String (List String) :=
  match st.session with
  | none => .error notConnectedMsg
  | some s => oracle s

/-- Embedding of `get_prompt` (lines 242-282). -/
def get_prompt (st : ClientState) (prompt_name : String) (arguments : List (String × String))
    (oracle : Nat → String → List (String × String) → Except String GetPromptResult) :
    Except String GetPromptResult :=
  match st.session with
  | none => .error notConnectedMsg
  | some s => oracle s prompt_name arguments

/-- Embedding of `disconnect` (lines 284-293): `aclose` the exit stack
(`acloseOk` is whether it succeeds), then `self.session = None`. -/
def disconnect (st : ClientState) (acloseOk : Bool) : Except String ClientState :=
  if acloseOk then .ok { st with session := none }
  else .error "Error during disconnect"

/-! ## Provider dispatcher (`LLMInteractiveClient`, src/client/llm_interactive_client.py)

The three vendor SDKs are external; their responses are oracle parameters.
What is embedded is the dispatch logic itself: which tool call is honored,
how many backend requests are issued, and how the shared conversation
history list is mutated.  `DispatchOutcome.hist` is the history list as the
caller (`process_query`) sees it after the helper returns — for
`_call_openai` the parameter aliases the caller's list, while
`_call_claude`/`_call_bedrock` rebind `messages = messages[1:]` whenever a
system message is present, which breaks the aliasing. -/

structure ToolCall where
  id : String
  name : String
  args : List (String × String)
deriving Repr, DecidableEq

/-- An Anthropic-style content block (`text` or `tool_use`). -/
inductive ContentBlock where
  | text (s : String)
  | toolUse (id : String) (name : String) (input : List (String × String))
deriving Repr, DecidableEq

/-- A conversation-history entry, covering the shapes appended by
`process_query` and the three `_call_*` helpers. -/
inductive Msg where
  | system (content : String)
  | user (content : String)
  | assistantText (content : String)
  | assistantToolCalls (tool_calls : List ToolCall)
  | toolResult (tool_call_id : String) (content : String)
  | assistantBlocks (blocks : List ContentBlock)
  | userToolResult (tool_use_id : String) (content : String)
deriving Repr, DecidableEq

/-- The message object of an OpenAI chat completion
(`response.choices[0].message`): `content` plus `tool_calls`, where an
empty list is Python-falsy. -/
structure OpenAIMessage where
  content : String
  tool_calls : List ToolCall
deriving Repr, DecidableEq

/-- An Anthropic / Bedrock response body: `stop_reason` and `content`. -/
structure ClaudeResponse where
  stop_reason : String
  content : List ContentBlock
deriving Repr, DecidableEq

/-- Python `next(block for block in content if block.type == "tool_use")`,
returning `none` where Python raises `StopIteration`. -/
def firstToolUse : List ContentBlock → Option ToolCall
  | [] => none
  | .text _ :: rest => firstToolUse rest
  | .toolUse id name input :: _ => some ⟨id, name, input⟩

/-- Python `response.content[0].text` (`IndexError` on an empty list,
`AttributeError` when the first block is a tool_use block). -/
def claudeText (r : ClaudeResponse) : Except String String :=
  match r.content with
  | [] => .error "IndexError: list index out of range"
  | .text s :: _ => .ok s
  | .toolUse _ _ _ :: _ => .error "AttributeError: text"

/-- What one `_call_*` helper did: its return value (or the exception it
raised), the history list as visible to the caller afterwards, the tool
calls it executed through the client facade, and how many follow-up
requests it issued to the backend. -/
structure DispatchOutcome where
  result : Except String String
  hist : List Msg
  executedCalls : List ToolCall
  followUpRequests : Nat
deriving Repr, DecidableEq

/-- Embedding of `_call_openai(messages)` (lines 230-274).  `first` is the
initial chat completion (or the exception it raises), `execTool` the client
facade's `call_tool`, `followUp` the second chat completion.  `hist` is the
caller's `conversation_history`, which the Python parameter aliases, so
every append is visible to the caller. -/
def call_openai (first : Except String OpenAIMessage)
    (execTool : ToolCall → Except String String)
    (followUp : List Msg → Except String String)
    (hist : List Msg) : DispatchOutcome :=
  match first with
  | .error e => ⟨.error e, hist, [], 0⟩
  | .ok message =>
    match message.tool_calls with
    | [] => ⟨.ok message.content, hist, [], 0⟩
    | tool_call :: _ =>
      match execTool tool_call with
      | .error e => ⟨.error e, hist, [tool_call], 0⟩
      | .ok result =>
        let hist1 := hist ++
          [Msg.assistantToolCalls [tool_call], Msg.toolResult tool_call.id result]
        match followUp hist1 with
        | .error e => ⟨.error e, hist1, [tool_call], 1⟩
        | .ok content => ⟨.ok content, hist1, [tool_call], 1⟩

/-- Embedding of `_call_claude(messages)` (lines 276-332).  When the first
entry is a system message the code rebinds `messages = messages[1:]`,
breaking the aliasing with the caller's list: subsequent appends are then
invisible to the caller. -/
def call_claude (first : Except String ClaudeResponse)
    (execTool : ToolCall → Except String String)
    (followUp : List Msg → Except String ClaudeResponse)
    (hist : List Msg) : DispatchOutcome :=
  let aliased : Bool := match hist with | Msg.system _ :: _ => false | _ => true
  let messages : List Msg := if aliased then hist else hist.tail
  match first with
  | .error e => ⟨.error e, hist, [], 0⟩
  | .ok response =>
    if response.stop_reason == "tool_use" then
      match firstToolUse response.content with
      | none => ⟨.error "StopIteration", hist, [], 0⟩
      | some tool_use =>
        match execTool tool_use with
        | .error e => ⟨.error e, hist, [tool_use], 0⟩
        | .ok result =>
          let messages1 := messages ++
            [Msg.assistantBlocks response.content, Msg.userToolResult tool_use.id result]
          let visible := if aliased then messages1 else hist
          match followUp messages1 with
          | .error e => ⟨.error e, visible, [tool_use], 1⟩
          | .ok final_response => ⟨claudeText final_response, visible, [tool_use], 1⟩
    else
      ⟨claudeText response, hist, [], 0⟩

/-- Embedding of `_call_bedrock(messages)` (lines 334-407): structurally
identical to `_call_claude` modulo the wire format, including the
`messages = messages[1:]` rebinding. -/
def call_bedrock (first : Except String ClaudeResponse)
    (execTool : ToolCall → Except String String)
    (followUp : List Msg → Except String ClaudeResponse)
    (hist : List Msg) : DispatchOutcome :=
  let aliased : Bool := match hist with | Msg.system _ :: _ => false | _ => true
  let messages : List Msg := if aliased then hist else hist.tail
  match first with
  | .error e => ⟨.error e, hist, [], 0⟩
  | .ok response_body =>
    if response_body.stop_reason == "tool_use" then
      match firstToolUse response_body.content with
      | none => ⟨.error "StopIteration", hist, [], 0⟩
      | some tool_use =>
        match execTool tool_use with
        | .error e => ⟨.error e, hist, [tool_use], 0⟩
        | .ok result =>
          let messages1 := messages ++
            [Msg.assistantBlocks response_body.content, Msg.userToolResult tool_use.id result]
          let visible := if aliased then messages1 else hist
          match followUp messages1 with
          | .error e => ⟨.error e, visible, [tool_use], 1⟩
          | .ok final_body => ⟨claudeText final_body, visible, [tool_use], 1⟩
    else
      ⟨claudeText response_body, hist, [], 0⟩

/-- The external backends' behaviour for one query: the first response of
each provider, the follow-up responses, and the tool executor. -/
structure BackendOracle where
  openaiFirst : Except String OpenAIMessage
  openaiFollowUp : List Msg → Except String String
  claudeFirst : Except String ClaudeResponse
  claudeFollowUp : List Msg → Except String ClaudeResponse
  bedrockFirst : Except String ClaudeResponse
  bedrockFollowUp : List Msg → Except String ClaudeResponse
  execTool : ToolCall → Except String String

/-- The provider dispatch inside `process_query` (lines 427-433):
`openai` / `anthropic` / anything else (`bedrock`). -/
def dispatch (provider : String) (o : BackendOracle) (hist : List Msg) : DispatchOutcome :=
  if provider == "openai" then
    call_openai o.openaiFirst o.execTool o.openaiFollowUp hist
  else if provider == "anthropic" then
    call_claude o.claudeFirst o.execTool o.claudeFollowUp hist
  else
    call_bedrock o.bedrockFirst o.execTool o.bedrockFollowUp hist

/-- What `process_query` returns and leaves in `conversation_history`. -/
structure QueryOutcome where
  response : String
  hist : List Msg
deriving Repr, DecidableEq

/-- Embedding of `process_query(query, conversation_history)`
(lines 409-444): append the user message, run the provider round trip,
then either append the assistant response or swallow the exception into an
`"Error processing query: ..."` string. -/
def process_query (provider : String) (o : BackendOracle) (query : String)
    (hist : List Msg) : QueryOutcome :=
  let hist1 := hist ++ [Msg.user query]
  let d := dispatch provider o hist1
  match d.result with
  | .ok response => ⟨response, d.hist ++ [Msg.assistantText response]⟩
  | .error e => ⟨"Error processing query: " ++ e, d.hist⟩

/-! ## Helper lemmas -/

/-- A successful lookup yields one of the four seeded records. -/
lemma lookupCity_eq_cases {k : String} {w : WeatherRecord} (h : lookupCity k = some w) :
    w = ⟨"New York", 72, "Partly Cloudy", 65, 12⟩ ∨ w = ⟨"London", 58, "Rainy", 80, 15⟩ ∨
    w = ⟨"Tokyo", 68, "Clear", 55, 8⟩ ∨ w = ⟨"Paris", 62, "Cloudy", 70, 10⟩ := by
  unfold lookupCity at h
  rw [Option.map_eq_some'] at h
  obtain ⟨p, hp, hw⟩ := h
  have hmem := List.mem_of_find?_eq_some hp
  subst hw
  simp only [weather_data, List.mem_cons, List.not_mem_nil, or_false] at hmem
  rcases hmem with rfl | rfl | rfl | rfl <;> simp

lemma str_infix_mid (a b c : String) : b.data <:+: (a ++ b ++ c).data :=
  ⟨a.data, c.data, by simp [String.data_append]⟩

lemma str_infix_ext_right {b a : String} (h : b.data <:+: a.data) (c : String) :
    b.data <:+: (a ++ c).data :=
  h.trans ⟨[], c.data, by simp [String.data_append]⟩

lemma str_infix_ext_left {b a : String} (h : b.data <:+: a.data) (c : String) :
    b.data <:+: (c ++ a).data :=
  h.trans ⟨c.data, [], by simp [String.data_append]⟩

/-- Reduction of `handle_call_tool` on the `get_current_weather` branch. -/
lemma handle_call_tool_current (args : List (String × String)) :
    handle_call_tool "get_current_weather" args =
      match lookupCity (strLower (getArg args "city")) with
      | none => .ok [⟨"text", unknownCityText (strLower (getArg args "city"))⟩]
      | some w => .ok [⟨"text", currentWeatherText w⟩] := rfl

/-- Reduction of `handle_call_tool` on the `compare_weather` branch. -/
lemma handle_call_tool_compare (args : List (String × String)) :
    handle_call_tool "compare_weather" args =
      match lookupCity (strLower (getArg args "city1")),
            lookupCity (strLower (getArg args "city2")) with
      | some w1, some w2 => .ok [⟨"text", compareText w1 w2⟩]
      | _, _ => .ok [⟨"text", compareErrText⟩] := rfl

/-! ## Claims -/

/-- **C2**: the server's `call_tool` handler is total: for every tool name
(known or not) and every string-valued argument map (missing keys default
to `""`), the handler returns a successful text payload and never raises —
unknown city and unknown tool name are soft errors rendered as text. -/
theorem call_tool_never_raises (name : String) (arguments : List (String × String)) :
    ∃ l, handle_call_tool name arguments = Except.ok l := by
  by_cases h1 : name = "get_current_weather"
  · subst h1
    rw [handle_call_tool_current]
    cases lookupCity (strLower (getArg arguments "city")) <;> exact ⟨_, rfl⟩
  · by_cases h2 : name = "compare_weather"
    · subst h2
      rw [handle_call_tool_compare]
      cases lookupCity (strLower (getArg arguments "city1")) <;>
        cases lookupCity (strLower (getArg arguments "city2")) <;> exact ⟨_, rfl⟩
    · by_cases h3 : name = "get_temperature_summary"
      · subst h3
        exact ⟨_, rfl⟩
      · refine ⟨[⟨"text", unknownToolText name⟩], ?_⟩
        simp [handle_call_tool, h1, h2, h3]

/-- **C3**: `get_temperature_summary` aggregates over all records: the mean
`260 / 4` rendered to one decimal place is `"65.0"`, max `72`, min `58`,
hottest city `"New York"`, coldest `"London"`, each chosen by equality
filtering with the first match winning; the full rendered payload on the
four seeded records is as the spec states. -/
theorem temperature_summary_spec :
    pyTrueDiv (pySum summaryTemps) summaryTemps.length = .ok (260, 4) ∧
    format1f (260, 4) = "65.0" ∧
    pyMax summaryTemps = .ok 72 ∧
    pyMin summaryTemps = .ok 58 ∧
    pyIndex0 (((weather_data.map (·.2)).filter
      (fun c => c.temperature == (72 : Int))).map (·.city)) = .ok "New York" ∧
    pyIndex0 (((weather_data.map (·.2)).filter
      (fun c => c.temperature == (58 : Int))).map (·.city)) = .ok "London" ∧
    (∀ (rs : List WeatherRecord) (t : Int) (w : WeatherRecord) (rest : List WeatherRecord),
        rs.filter (fun c => c.temperature == t) = w :: rest →
        pyIndex0 ((rs.filter (fun c => c.temperature == t)).map (·.city)) = .ok w.city) ∧
    handle_call_tool "get_temperature_summary" [] = .ok [⟨"text",
      "Temperature Summary Across All Cities:\n\nAverage Temperature: 65.0°F\nHottest: New York at 72°F\nColdest: London at 58°F\nRange: 14°F"⟩] := by
  refine ⟨by decide, by decide, by decide, by decide, by decide, by decide, ?_, by decide⟩
  intro rs t w rest h
  rw [h]
  rfl

/-- Witness for the first-match clause of `temperature_summary_spec`. -/
theorem temperature_summary_spec_witness :
    pyIndex0 (((weather_data.map (·.2)).filter
      (fun c => c.temperature == (72 : Int))).map (·.city)) =
      .ok (WeatherRecord.city ⟨"New York", 72, "Partly Cloudy", 65, 12⟩) :=
  temperature_summary_spec.2.2.2.2.2.2.1 (weather_data.map (·.2)) 72
    ⟨"New York", 72, "Partly Cloudy", 65, 12⟩ [] (by decide)

/-- **C4**: `compare_weather` requires both cities to resolve (any miss
yields the soft error naming the available cities); on success it reports
the absolute temperature difference and labels the first city by the sign
of the difference; on `("new_york", "tokyo")` the difference is 4 and
New York is labelled warmer. -/
theorem compare_weather_spec :
    (∀ args, (lookupCity (strLower (getArg args "city1")) = none ∨
              lookupCity (strLower (getArg args "city2")) = none) →
        handle_call_tool "compare_weather" args = .ok [⟨"text", compareErrText⟩]) ∧
    ("new_york, london, tokyo, paris".data <:+: compareErrText.data) ∧
    (∀ args w1 w2, lookupCity (strLower (getArg args "city1")) = some w1 →
        lookupCity (strLower (getArg args "city2")) = some w2 →
        handle_call_tool "compare_weather" args = .ok [⟨"text", compareText w1 w2⟩]) ∧
    (∀ args w1 w2, lookupCity (strLower (getArg args "city1")) = some w1 →
        lookupCity (strLower (getArg args "city2")) = some w2 →
        ((("Temperature difference: " ++
            toString (w1.temperature - w2.temperature).natAbs ++ "°F").data <:+:
            (compareText w1 w2).data) ∧
         (((w1.city ++ " is warmer").data <:+: (compareText w1 w2).data) ↔
            w1.temperature > w2.temperature) ∧
         (((w1.city ++ " is cooler").data <:+: (compareText w1 w2).data) ↔
            w1.temperature < w2.temperature) ∧
         (((w1.city ++ " is the same temperature").data <:+: (compareText w1 w2).data) ↔
            w1.temperature = w2.temperature))) ∧
    handle_call_tool "compare_weather" [("city1", "new_york"), ("city2", "tokyo")] =
      .ok [⟨"text", compareText ⟨"New York", 72, "Partly Cloudy", 65, 12⟩
                      ⟨"Tokyo", 68, "Clear", 55, 8⟩⟩] ∧
    ("Temperature difference: 4°F".data <:+:
      (compareText ⟨"New York", 72, "Partly Cloudy", 65, 12⟩ ⟨"Tokyo", 68, "Clear", 55, 8⟩).data) ∧
    ("(New York is warmer)".data <:+:
      (compareText ⟨"New York", 72, "Partly Cloudy", 65, 12⟩ ⟨"Tokyo", 68, "Clear", 55, 8⟩).data) := by
  refine ⟨?_, by decide, ?_, ?_, by decide, by decide, by decide⟩
  · rintro args (h | h) <;> rw [handle_call_tool_compare, h] <;>
      first
        | rfl
        | (rcases hx : lookupCity (strLower (getArg args "city2")) with _ | w <;> simp [hx])
        | (rcases hx : lookupCity (strLower (getArg args "city1")) with _ | w <;> simp [hx])
  · intro args w1 w2 h1 h2
    rw [handle_call_tool_compare, h1, h2]
  · intro args w1 w2 h1 h2
    rcases lookupCity_eq_cases h1 with rfl | rfl | rfl | rfl <;>
      rcases lookupCity_eq_cases h2 with rfl | rfl | rfl | rfl <;>
      exact ⟨by decide, by decide, by decide, by decide⟩

/-- Witness for `compare_weather_spec`: both hypothesised clauses applied
at concrete inputs. -/
theorem compare_weather_spec_witness :
    handle_call_tool "compare_weather" [("city1", "atlantis"), ("city2", "tokyo")] =
      .ok [⟨"text", compareErrText⟩] ∧
    handle_call_tool "compare_weather" [("city1", "new_york"), ("city2", "tokyo")] =
      .ok [⟨"text", compareText ⟨"New York", 72, "Partly Cloudy", 65, 12⟩
                      ⟨"Tokyo", 68, "Clear", 55, 8⟩⟩] :=
  ⟨compare_weather_spec.1 [("city1", "atlantis"), ("city2", "tokyo")] (Or.inl (by decide)),
   compare_weather_spec.2.2.1 [("city1", "new_york"), ("city2", "tokyo")] _ _
     (by decide) (by decide)⟩

/-- **C5**: `get_current_weather` lowercases the argument before the
lookup; on a hit it returns a multi-line summary containing the display
name and the numeric temperature (so `"london"` yields text containing
`"London"` and `"58°F"`); on a miss it returns, without raising, an
error payload containing `"Unknown city"` and the valid keys (so
`"atlantis"` yields text containing `"Unknown city"`). -/
theorem get_current_weather_spec :
    (∀ args w, lookupCity (strLower (getArg args "city")) = some w →
        handle_call_tool "get_current_weather" args = .ok [⟨"text", currentWeatherText w⟩] ∧
        w.city.data <:+: (currentWeatherText w).data ∧
        (toString w.temperature).data <:+: (currentWeatherText w).data) ∧
    (∀ args, lookupCity (strLower (getArg args "city")) = none →
        handle_call_tool "get_current_weather" args =
          .ok [⟨"text", unknownCityText (strLower (getArg args "city"))⟩]) ∧
    (∀ city, "Unknown city".data <:+: (unknownCityText city).data) ∧
    (∀ city, "new_york, london, tokyo, paris".data <:+: (unknownCityText city).data) ∧
    handle_call_tool "get_current_weather" [("city", "london")] =
      .ok [⟨"text", currentWeatherText ⟨"London", 58, "Rainy", 80, 15⟩⟩] ∧
    ("London".data <:+: (currentWeatherText ⟨"London", 58, "Rainy", 80, 15⟩).data) ∧
    ("58°F".data <:+: (currentWeatherText ⟨"London", 58, "Rainy", 80, 15⟩).data) ∧
    handle_call_tool "get_current_weather" [("city", "atlantis")] =
      .ok [⟨"text", unknownCityText "atlantis"⟩] ∧
    ("Unknown city".data <:+: (unknownCityText "atlantis").data) ∧
    handle_call_tool "get_current_weather" [("city", "LONDON")] =
      handle_call_tool "get_current_weather" [("city", "london")] := by
  refine ⟨?_, ?_, ?_, ?_, by decide, by decide, by decide, by decide, by decide, by decide⟩
  · intro args w h
    refine ⟨by rw [handle_call_tool_current, h], ?_⟩
    rcases lookupCity_eq_cases h with rfl | rfl | rfl | rfl <;> exact ⟨by decide, by decide⟩
  · intro args h
    rw [handle_call_tool_current, h]
  · intro city
    have h0 : ("Unknown city" : String).data <:+: ("Error: Unknown city '" : String).data := by
      decide
    unfold unknownCityText
    exact str_infix_ext_right
      (str_infix_ext_right (str_infix_ext_right h0 city) "'. Available cities: ")
      availableCities
  · intro city
    have h0 : ("new_york, london, tokyo, paris" : String).data <:+: availableCities.data := by
      decide
    unfold unknownCityText
    exact str_infix_ext_left h0 ("Error: Unknown city '" ++ city ++ "'. Available cities: ")

/-- Witness for `get_current_weather_spec`: the hit and miss clauses
applied at concrete inputs. -/
theorem get_current_weather_spec_witness :
    handle_call_tool "get_current_weather" [("city", "london")] =
      .ok [⟨"text", currentWeatherText ⟨"London", 58, "Rainy", 80, 15⟩⟩] ∧
    handle_call_tool "get_current_weather" [("city", "atlantis")] =
      .ok [⟨"text", unknownCityText "atlantis"⟩] :=
  ⟨(get_current_weather_spec.1 [("city", "london")] ⟨"London", 58, "Rainy", 80, 15⟩
      (by decide)).1,
   get_current_weather_spec.2.1 [("city", "atlantis")] (by decide)⟩

/-- **C6**: `read_resource` parses the city key out of the uri and fails
exactly when that key is absent from the weather mapping; for each of the
four seeded keys it succeeds with a snapshot containing the display name
and the freshly stamped timestamp, and the stored mapping is unchanged. -/
theorem read_resource_spec :
    (∀ uri now, (∃ e, (handle_read_resource uri now).1 = .error e) ↔
        lookupCity (uriCityKey uri) = none) ∧
    (∀ uri now, (handle_read_resource uri now).2 = weather_data) ∧
    (∀ key, key ∈ weather_data.map (·.1) → ∀ now, ∃ w, lookupCity key = some w ∧
        (handle_read_resource ("weather://" ++ key) now).1 = .ok (weatherSnapshot w now) ∧
        ("city", w.city) ∈ weatherSnapshot w now ∧
        ("timestamp", now) ∈ weatherSnapshot w now) := by
  refine ⟨?_, ?_, ?_⟩
  · intro uri now
    unfold handle_read_resource
    cases h : lookupCity (uriCityKey uri) <;> simp [h]
  · intro uri now
    unfold handle_read_resource
    cases h : lookupCity (uriCityKey uri) <;> simp [h]
  · intro key hk now
    simp only [weather_data, List.map_cons, List.map_nil, List.mem_cons,
      List.not_mem_nil, or_false] at hk
    rcases hk with rfl | rfl | rfl | rfl
    · exact ⟨⟨"New York", 72, "Partly Cloudy", 65, 12⟩, by decide, rfl,
        by simp [weatherSnapshot], by simp [weatherSnapshot]⟩
    · exact ⟨⟨"London", 58, "Rainy", 80, 15⟩, by decide, rfl,
        by simp [weatherSnapshot], by simp [weatherSnapshot]⟩
    · exact ⟨⟨"Tokyo", 68, "Clear", 55, 8⟩, by decide, rfl,
        by simp [weatherSnapshot], by simp [weatherSnapshot]⟩
    · exact ⟨⟨"Paris", 62, "Cloudy", 70, 10⟩, by decide, rfl,
        by simp [weatherSnapshot], by simp [weatherSnapshot]⟩

/-- Witness for `read_resource_spec`: the seeded-key clause applied at
`new_york` with a fixed timestamp, and the error clause at a bogus uri. -/
theorem read_resource_spec_witness :
    (∃ w, lookupCity "new_york" = some w ∧
      (handle_read_resource "weather://new_york" "2024-01-01T12:00:00").1 =
        .ok (weatherSnapshot w "2024-01-01T12:00:00") ∧
      ("city", w.city) ∈ weatherSnapshot w "2024-01-01T12:00:00" ∧
      ("timestamp", "2024-01-01T12:00:00") ∈ weatherSnapshot w "2024-01-01T12:00:00") ∧
    ((∃ e, (handle_read_resource "weather://atlantis" "t").1 = .error e) ↔
      lookupCity (uriCityKey "weather://atlantis") = none) :=
  ⟨read_resource_spec.2.2 "new_york" (by decide) "2024-01-01T12:00:00",
   read_resource_spec.1 "weather://atlantis" "t"⟩

/-- **C10 counterexample**: `get_prompt("weather_report", city="atlantis")`
succeeds, but the inline error string `"Error: Unknown city '...'"` appears
nowhere in the rendered result — neither in the message content nor in the
description — even though the city is absent from the mapping. -/
theorem get_prompt_unknown_city_counterexample :
    handle_get_prompt "weather_report" [("city", "atlantis")] =
      .ok ⟨"Weather report for atlantis",
           [⟨"user", ⟨"text", weatherReportText "atlantis"⟩⟩]⟩ ∧
    ¬ ("Error: Unknown city".data <:+: (weatherReportText "atlantis").data) ∧
    ¬ ("Error: Unknown city".data <:+: ("Weather report for atlantis" : String).data) ∧
    lookupCity (strLower (getArg [("city", "atlantis")] "city")) = none := by
  decide

/-- **C10 (amended)**: an unknown city never makes `weather_report` fail —
the handler always succeeds, rendering the (lowercased) city argument into
the fixed template; the inline error string is computed into a dead local
and discarded.  An unknown prompt name, by contrast, fails with a
NotFound-style fault. -/
theorem get_prompt_weather_report_spec :
    (∀ args, handle_get_prompt "weather_report" args =
        .ok ⟨"Weather report for " ++ strLower (getArg args "city"),
             [⟨"user", ⟨"text", weatherReportText (strLower (getArg args "city"))⟩⟩]⟩) ∧
    (∀ city, (strLower city).data <:+: (weatherReportText (strLower city)).data) ∧
    (∀ name args, name ≠ "weather_report" → name ≠ "travel_weather_advice" →
        handle_get_prompt name args = .error ("Unknown prompt: " ++ name)) := by
  refine ⟨fun args => rfl, ?_, ?_⟩
  · intro city
    unfold weatherReportText
    exact str_infix_mid "Please provide a detailed weather report for " (strLower city)
      ". Include temperature, conditions, humidity, and any relevant advice."
  · intro name args h1 h2
    simp [handle_get_prompt, h1, h2]

/-- Witness for `get_prompt_weather_report_spec`: the unknown-prompt clause
applied at a concrete name. -/
theorem get_prompt_weather_report_spec_witness :
    handle_get_prompt "no_such_prompt" [] = .error ("Unknown prompt: " ++ "no_such_prompt") :=
  get_prompt_weather_report_spec.2.2 "no_such_prompt" [] (by decide) (by decide)

/-- **C8**: every client facade method fails with the "unconnected" error
whenever no session is open — in the freshly initialized state, and again
after a successful `disconnect` resets the session to `None`. -/
theorem facade_unconnected_errors :
    initClient.session = none ∧
    (∀ st ok st', disconnect st ok = .ok st' → st'.session = none) ∧
    (∀ st, st.session = none →
      (∀ o, list_resources st o = .error notConnectedMsg) ∧
      (∀ uri o, read_resource st uri o = .error notConnectedMsg) ∧
      (∀ o, list_tools st o = .error notConnectedMsg) ∧
      (∀ n a o, call_tool st n a o = .error notConnectedMsg) ∧
      (∀ o, list_prompts st o = .error notConnectedMsg) ∧
      (∀ n a o, get_prompt st n a o = .error notConnectedMsg)) := by
  refine ⟨rfl, ?_, ?_⟩
  · intro st ok st' h
    unfold disconnect at h
    split at h
    · cases h
      rfl
    · cases h
  · intro st h
    exact ⟨fun o => by simp [list_resources, h],
           fun uri o => by simp [read_resource, h],
           fun o => by simp [list_tools, h],
           fun n a o => by simp [call_tool, h],
           fun o => by simp [list_prompts, h],
           fun n a o => by simp [get_prompt, h]⟩

/-- Witness for `facade_unconnected_errors`: the guard clauses applied in
the initial (never-connected) state and after a disconnect. -/
theorem facade_unconnected_errors_witness :
    call_tool initClient "get_current_weather" [("city", "london")]
      (fun _ _ _ => .ok "unused") = .error notConnectedMsg ∧
    list_resources ⟨none, 1⟩ (fun _ => .ok []) = .error notConnectedMsg :=
  ⟨(facade_unconnected_errors.2.2 initClient rfl).2.2.2.1 "get_current_weather"
      [("city", "london")] (fun _ _ _ => .ok "unused"),
   (facade_unconnected_errors.2.2 ⟨none, 1⟩ rfl).1 (fun _ => .ok [])⟩

/-- **C9 counterexample**: calling `connect_to_server` a second time
without an intervening disconnect does not fail — it succeeds and opens a
second transport (the opened-transport counter reaches 2). -/
theorem connect_twice_counterexample :
    connect_to_server initClient true = .ok ⟨some 0, 1⟩ ∧
    connect_to_server ⟨some 0, 1⟩ true = .ok ⟨some 1, 2⟩ := by
  decide

/-- **C9 (amended)**: `connect_to_server` has no double-call guard: even
with a session already open, a successful call opens one more transport on
the exit stack and replaces the session, rather than erroring. -/
theorem connect_no_double_guard (st : ClientState) (s : Nat) (h : st.session = some s) :
    connect_to_server st true =
      .ok { session := some st.transportsOpened,
            transportsOpened := st.transportsOpened + 1 } := rfl

/-- Witness for `connect_no_double_guard`: applied right after a first
successful connect. -/
theorem connect_no_double_guard_witness :
    connect_to_server ⟨some 0, 1⟩ true = .ok { session := some 1, transportsOpened := 2 } :=
  connect_no_double_guard ⟨some 0, 1⟩ 0 rfl

/-! ### Dispatcher helper lemmas -/

lemma call_openai_executed_le_one (first : Except String OpenAIMessage)
    (execTool : ToolCall → Except String String)
    (followUp : List Msg → Except String String) (hist : List Msg) :
    (call_openai first execTool followUp hist).executedCalls.length ≤ 1 := by
  unfold call_openai
  rcases first with e | m
  · simp
  · rcases h : m.tool_calls with _ | ⟨c, rest⟩ <;> simp only [h]
    · simp
    · rcases he : execTool c with e | r <;> simp only [he]
      · simp
      · rcases hf : followUp _ with e | s <;> simp [hf]

lemma call_claude_executed_le_one (first : Except String ClaudeResponse)
    (execTool : ToolCall → Except String String)
    (followUp : List Msg → Except String ClaudeResponse) (hist : List Msg) :
    (call_claude first execTool followUp hist).executedCalls.length ≤ 1 := by
  unfold call_claude
  rcases first with e | r
  · simp
  · rcases h : (r.stop_reason == "tool_use") with _ | _ <;> simp only [h]
    · simp
    · rcases h2 : firstToolUse r.content with _ | c <;> simp only [h2]
      · simp
      · rcases he : execTool c with e | s <;> simp only [he]
        · simp
        · rcases hf : followUp _ with e | fr <;> simp [hf]

lemma call_bedrock_executed_le_one (first : Except String ClaudeResponse)
    (execTool : ToolCall → Except String String)
    (followUp : List Msg → Except String ClaudeResponse) (hist : List Msg) :
    (call_bedrock first execTool followUp hist).executedCalls.length ≤ 1 := by
  unfold call_bedrock
  rcases first with e | r
  · simp
  · rcases h : (r.stop_reason == "tool_use") with _ | _ <;> simp only [h]
    · simp
    · rcases h2 : firstToolUse r.content with _ | c <;> simp only [h2]
      · simp
      · rcases he : execTool c with e | s <;> simp only [he]
        · simp
        · rcases hf : followUp _ with e | fr <;> simp [hf]

lemma call_openai_hist_extends (first : Except String OpenAIMessage)
    (execTool : ToolCall → Except String String)
    (followUp : List Msg → Except String String) (hist : List Msg) :
    hist <+: (call_openai first execTool followUp hist).hist := by
  unfold call_openai
  rcases first with e | m
  · exact List.prefix_rfl
  · rcases h : m.tool_calls with _ | ⟨c, rest⟩ <;> simp only [h]
    · exact List.prefix_rfl
    · rcases he : execTool c with e | r <;> simp only [he]
      · exact List.prefix_rfl
      · rcases hf : followUp _ with e | s <;> simp only [hf] <;>
          exact List.prefix_append _ _

lemma call_claude_hist_extends (first : Except String ClaudeResponse)
    (execTool : ToolCall → Except String String)
    (followUp : List Msg → Except String ClaudeResponse) (hist : List Msg) :
    hist <+: (call_claude first execTool followUp hist).hist := by
  unfold call_claude
  rcases first with e | r
  · exact List.prefix_rfl
  · rcases h : (r.stop_reason == "tool_use") with _ | _ <;> simp only [h]
    · simp
    · rcases h2 : firstToolUse r.content with _ | c <;> simp only [h2]
      · simp
      · rcases he : execTool c with e | s <;> simp only [he]
        · simp
        · rcases hf : followUp _ with e | fr <;> simp only [hf] <;>
          · rcases hist with _ | ⟨m, rest⟩
            · simp
            · cases m <;> simp

lemma call_bedrock_hist_extends (first : Except String ClaudeResponse)
    (execTool : ToolCall → Except String String)
    (followUp : List Msg → Except String ClaudeResponse) (hist : List Msg) :
    hist <+: (call_bedrock first execTool followUp hist).hist := by
  unfold call_bedrock
  rcases first with e | r
  · exact List.prefix_rfl
  · rcases h : (r.stop_reason == "tool_use") with _ | _ <;> simp only [h]
    · simp
    · rcases h2 : firstToolUse r.content with _ | c <;> simp only [h2]
      · simp
      · rcases he : execTool c with e | s <;> simp only [he]
        · simp
        · rcases hf : followUp _ with e | fr <;> simp only [hf] <;>
          · rcases hist with _ | ⟨m, rest⟩
            · simp
            · cases m <;> simp

lemma dispatch_hist_extends (provider : String) (o : BackendOracle) (hist : List Msg) :
    hist <+: (dispatch provider o hist).hist := by
  unfold dispatch
  split
  · exact call_openai_hist_extends _ _ _ _
  · split
    · exact call_claude_hist_extends _ _ _ _
    · exact call_bedrock_hist_extends _ _ _ _

/-- **C1**: per user query, each backend helper executes at most one tool
call through the client facade; when the backend requests tool calls, only
the first is honored; and once that tool call has executed, exactly one
follow-up request is issued to the backend (and none when no tool call was
requested). -/
theorem single_tool_call_per_query :
    (∀ provider o hist, (dispatch provider o hist).executedCalls.length ≤ 1) ∧
    (∀ (m : OpenAIMessage) execTool followUp hist c rest, m.tool_calls = c :: rest →
        (call_openai (.ok m) execTool followUp hist).executedCalls = [c] ∧
        ∀ r, execTool c = .ok r →
          (call_openai (.ok m) execTool followUp hist).followUpRequests = 1) ∧
    (∀ (m : OpenAIMessage) execTool followUp hist, m.tool_calls = [] →
        (call_openai (.ok m) execTool followUp hist).executedCalls = [] ∧
        (call_openai (.ok m) execTool followUp hist).followUpRequests = 0) ∧
    (∀ (r : ClaudeResponse) execTool followUp hist c,
        r.stop_reason = "tool_use" → firstToolUse r.content = some c →
        (call_claude (.ok r) execTool followUp hist).executedCalls = [c] ∧
        ∀ s, execTool c = .ok s →
          (call_claude (.ok r) execTool followUp hist).followUpRequests = 1) ∧
    (∀ (r : ClaudeResponse) execTool followUp hist c,
        r.stop_reason = "tool_use" → firstToolUse r.content = some c →
        (call_bedrock (.ok r) execTool followUp hist).executedCalls = [c] ∧
        ∀ s, execTool c = .ok s →
          (call_bedrock (.ok r) execTool followUp hist).followUpRequests = 1) := by
  refine ⟨?_, ?_, ?_, ?_, ?_⟩
  · intro provider o hist
    unfold dispatch
    split
    · exact call_openai_executed_le_one _ _ _ _
    · split
      · exact call_claude_executed_le_one _ _ _ _
      · exact call_bedrock_executed_le_one _ _ _ _
  · intro m execTool followUp hist c rest h
    unfold call_openai
    simp only [h]
    constructor
    · rcases he : execTool c with e | r <;> simp only [he] <;>
        first
          | rfl
          | (rcases hf : followUp _ with e | s <;> simp [hf])
    · intro r he
      simp only [he]
      rcases hf : followUp _ with e | s <;> simp [hf]
  · intro m execTool followUp hist h
    unfold call_openai
    simp [h]
  · intro r execTool followUp hist c h hc
    unfold call_claude
    simp only [h, beq_self_eq_true, if_true, hc]
    constructor
    · rcases he : execTool c with e | s <;> simp only [he] <;>
        first
          | rfl
          | (rcases hf : followUp _ with e | fr <;> simp [hf])
    · intro s he
      simp only [he]
      rcases hf : followUp _ with e | fr <;> simp [hf]
  · intro r execTool followUp hist c h hc
    unfold call_bedrock
    simp only [h, beq_self_eq_true, if_true, hc]
    constructor
    · rcases he : execTool c with e | s <;> simp only [he] <;>
        first
          | rfl
          | (rcases hf : followUp _ with e | fr <;> simp [hf])
    · intro s he
      simp only [he]
      rcases hf : followUp _ with e | fr <;> simp [hf]

/-- A backend response that requests two tool calls. -/
def twoCallMsg : OpenAIMessage :=
  ⟨"", [⟨"call_1", "get_current_weather", [("city", "london")]⟩,
        ⟨"call_2", "compare_weather", []⟩]⟩

/-- Witness for `single_tool_call_per_query`: on a response requesting two
tool calls, only the first is executed and one follow-up is issued. -/
theorem single_tool_call_per_query_witness :
    (call_openai (.ok twoCallMsg) (fun _ => .ok "tool output")
        (fun _ => .ok "final answer") []).executedCalls =
      [⟨"call_1", "get_current_weather", [("city", "london")]⟩] ∧
    (call_openai (.ok twoCallMsg) (fun _ => .ok "tool output")
        (fun _ => .ok "final answer") []).followUpRequests = 1 :=
  ⟨(single_tool_call_per_query.2.1 twoCallMsg _ _ []
      ⟨"call_1", "get_current_weather", [("city", "london")]⟩
      [⟨"call_2", "compare_weather", []⟩] rfl).1,
   (single_tool_call_per_query.2.1 twoCallMsg _ _ []
      ⟨"call_1", "get_current_weather", [("city", "london")]⟩
      [⟨"call_2", "compare_weather", []⟩] rfl).2 "tool output" rfl⟩

/-- A backend oracle whose follow-up request fails after a successful tool
execution. -/
def c7Oracle : BackendOracle :=
  { openaiFirst := .ok ⟨"", [⟨"call_1", "get_current_weather", [("city", "london")]⟩]⟩,
    openaiFollowUp := fun _ => .error "rate limited",
    claudeFirst := .error "unused",
    claudeFollowUp := fun _ => .error "unused",
    bedrockFirst := .error "unused",
    bedrockFollowUp := fun _ => .error "unused",
    execTool := fun _ => .ok "tool output" }

/-- **C7 counterexample**: when the OpenAI follow-up request raises after a
successful tool execution, `process_query` returns the
`"Error processing query: ..."` string, but the shared history does not
end with the user's message — the helper had already appended an assistant
tool-call message and a tool result to the aliased list. -/
theorem process_query_failure_counterexample :
    (process_query "openai" c7Oracle "how is london?" []).response =
      "Error processing query: rate limited" ∧
    (process_query "openai" c7Oracle "how is london?" []).hist =
      [Msg.user "how is london?",
       Msg.assistantToolCalls [⟨"call_1", "get_current_weather", [("city", "london")]⟩],
       Msg.toolResult "call_1" "tool output"] ∧
    (process_query "openai" c7Oracle "how is london?" []).hist.getLast? ≠
      some (Msg.user "how is london?") := by
  decide

/-- **C7 (amended)**: any exception during the round trip is caught and
converted into an `"Error processing query: ..."` string, never
propagated; the history with the user's message appended is always a
prefix of the resulting history (so the user's message survives every
failure); and on failure `process_query` itself appends nothing — the
resulting history is exactly whatever the backend helper left behind,
which may end in the helper's tool-call bookkeeping rather than the user's
message. -/
theorem process_query_error_spec :
    (∀ provider o query hist e,
        (dispatch provider o (hist ++ [Msg.user query])).result = .error e →
        process_query provider o query hist =
          ⟨"Error processing query: " ++ e,
           (dispatch provider o (hist ++ [Msg.user query])).hist⟩) ∧
    (∀ provider o query hist,
        (hist ++ [Msg.user query]) <+: (process_query provider o query hist).hist) := by
  constructor
  · intro provider o query hist e h
    unfold process_query
    simp only [h]
  · intro provider o query hist
    unfold process_query
    rcases h : (dispatch provider o (hist ++ [Msg.user query])).result with e | resp <;>
      simp only [h]
    · exact dispatch_hist_extends _ _ _
    · exact (dispatch_hist_extends provider o (hist ++ [Msg.user query])).trans
        (List.prefix_append _ _)

/-- Witness for `process_query_error_spec`: the failure clause applied at
the concrete failing oracle. -/
theorem process_query_error_spec_witness :
    process_query "openai" c7Oracle "how is london?" [] =
      ⟨"Error processing query: " ++ "rate limited",
       (dispatch "openai" c7Oracle ([] ++ [Msg.user "how is london?"])).hist⟩ :=
  process_query_error_spec.1 "openai" c7Oracle "how is london?" [] "rate limited" (by decide)

end WeatherApp
